import Mathlib

/-!
Shallow embedding of the gym check-in kiosk's core services
(subscription evaluator, access decision engine, storage contract,
gym-hours aggregation), translated from
`src/services/subscription.service.ts`, `src/services/access.service.ts`,
`src/services/storage.service.ts` and the member-stats component
(`calculateGymHours`).

Modelling conventions:
- Timestamps are integers (milliseconds since epoch); every
  `new Date()` occurring inside one service call is modelled by a single
  `now` parameter to that call.
- The record store (Supabase tables) is a pure `Store` structure; each
  storage function becomes a pure function on `Store`, and the async
  service entry points become `Store → ... → Store × result`.
- `crypto.randomUUID()` log ids are omitted from the stored rows: the
  `addScanLog` insert does not persist the client-side `id` column.
- The falsiness guard in `addScanLog` (`!log.userId || !log.action ||
  !log.status || !log.timestamp`) degenerates to a check on `userId`:
  `action` and `status` are non-empty enum strings and `timestamp` is an
  ISO string produced by `toISOString()`, all always truthy.
-/

namespace Gym

/-- Subscription status enum (`"active" | "expired" | "cancelled"`). -/
inductive SubStatus where
  | active
  | expired
  | cancelled
deriving DecidableEq, Repr

/-- Scan log action enum (`"check-in" | "check-out" | "not-applicable"`). -/
inductive ScanAction where
  | checkIn
  | checkOut
  | notApplicable
deriving DecidableEq, Repr

/-- Scan log status enum (`"success" | "expired" | "invalid"`). -/
inductive ScanStatus where
  | success
  | expired
  | invalid
deriving DecidableEq, Repr

/-- Model of `User` record (`src/types/index.ts`); physical attributes and audit
timestamps are carried but unused by the core logic. -/
structure User where
  userId : String
  name : String
  email : String
  phone : String
  createdAt : Int
  updatedAt : Int
deriving DecidableEq, Repr

/-- Model of `Subscription` record. -/
structure Subscription where
  userId : String
  startDate : Int
  endDate : Int
  status : SubStatus
  createdAt : Int
deriving DecidableEq, Repr

/-- Model of `SubscriptionHistory` record: archival copy with its own id and an
archival (`updatedAt`) timestamp. -/
structure SubscriptionHistory where
  id : String
  userId : String
  startDate : Int
  endDate : Int
  status : SubStatus
  createdAt : Int
  updatedAt : Int
deriving DecidableEq, Repr

/-- Model of `ScanLog` row as persisted (`addScanLog` inserts user_id, user_name,
timestamp, action, status; the client-side `id` is not stored). -/
structure ScanLog where
  userId : String
  userName : String
  timestamp : Int
  action : ScanAction
  status : ScanStatus
deriving DecidableEq, Repr

/-- Model of `ActiveSession` record. -/
structure ActiveSession where
  userId : String
  userName : String
  checkInTime : Int
deriving DecidableEq, Repr

/-- The record store: one list per table. -/
structure Store where
  users : List User
  subscriptions : List Subscription
  scanLogs : List ScanLog
  history : List SubscriptionHistory
  sessions : List ActiveSession
deriving DecidableEq, Repr

/-! ## Storage service (`storage.service.ts`) -/

/-- Model of `getUserById`: `.eq("user_id", userId).maybeSingle()`. -/
def getUserById (st : Store) (userId : String) : Option User :=
  st.users.find? (fun u => u.userId == userId)

/-- Model of `getSubscriptionByUserId`: `.eq("user_id", userId).maybeSingle()`. -/
def getSubscriptionByUserId (st : Store) (userId : String) : Option Subscription :=
  st.subscriptions.find? (fun s => s.userId == userId)

/-- Model of `addScanLog`: inserts the row unless the falsiness guard fires (see
module header: only `userId` can be falsy). -/
def addScanLog (st : Store) (log : ScanLog) : Store :=
  if log.userId = "" then st
  else { st with scanLogs := st.scanLogs ++ [log] }

/-- Model of `getActiveSessionByUserId`: `.eq("user_id", userId).limit(1).maybeSingle()`. -/
def getActiveSessionByUserId (st : Store) (userId : String) : Option ActiveSession :=
  st.sessions.find? (fun s => s.userId == userId)

/-- Model of `isUserCheckedIn`. -/
def isUserCheckedIn (st : Store) (userId : String) : Bool :=
  (getActiveSessionByUserId st userId).isSome

/-- Model of `startSession`: unconditional insert of the session row. -/
def startSession (st : Store) (session : ActiveSession) : Store :=
  { st with sessions := st.sessions ++ [session] }

/-- Model of `endSession`: read the session; if present, delete every row with
that `user_id` and return the session that was read; else return null. -/
def endSession (st : Store) (userId : String) : Store × Option ActiveSession :=
  match getActiveSessionByUserId st userId with
  | none => (st, none)
  | some s =>
      ({ st with sessions := st.sessions.filter (fun x => x.userId != userId) }, some s)

/-- Model of `archiveSubscription`: append a history row copying the subscription's
fields, with id `` userId-Date.now() `` and `updated_at = now`. -/
def archiveSubscription (st : Store) (s : Subscription) (now : Int) : Store :=
  { st with
    history := st.history ++
      [{ id := s.userId ++ "-" ++ toString now
         userId := s.userId
         startDate := s.startDate
         endDate := s.endDate
         status := s.status
         createdAt := s.createdAt
         updatedAt := now }] }

/-- Model of `addOrUpdateSubscription`: if a current row exists, archive it and then
update that row's `start_date`, `end_date`, `status` (note: `created_at`
is NOT part of the update); otherwise insert the new row. -/
def addOrUpdateSubscription (st : Store) (sub : Subscription) (now : Int) : Store :=
  match getSubscriptionByUserId st sub.userId with
  | some existing =>
      let st1 := archiveSubscription st existing now
      { st1 with
        subscriptions := st1.subscriptions.map (fun s =>
          if s.userId == sub.userId then
            { s with startDate := sub.startDate, endDate := sub.endDate, status := sub.status }
          else s) }
  | none => { st with subscriptions := st.subscriptions ++ [sub] }

/-! ## Subscription evaluator (`subscription.service.ts`) -/

/-- Model of `isSubscriptionActive`: exists, status is `active`, `endDate >= now`. -/
def isSubscriptionActive (subscription : Option Subscription) (now : Int) : Bool :=
  match subscription with
  | none => false
  | some s => s.status == SubStatus.active && s.endDate ≥ now

/-- Milliseconds per day (`1000 * 60 * 60 * 24`). -/
def msPerDay : Int := 86400000

/-- Model of `getRemainingDays`: `Math.max(0, Math.ceil((end - now) / msPerDay))`.
The real-number ceiling division is expressed over the integers as
`-((now - end) / msPerDay)` with Euclidean (floor-for-positive-divisor)
division. -/
def getRemainingDays (subscription : Option Subscription) (now : Int) : Int :=
  match subscription with
  | none => 0
  | some s => max 0 (-((now - s.endDate) / msPerDay))

/-- Model of `isExpiringSoon`: absent or non-active status is never expiring soon;
otherwise `0 < remaining ≤ daysThreshold`. -/
def isExpiringSoon (subscription : Option Subscription) (daysThreshold : Int) (now : Int) : Bool :=
  match subscription with
  | none => false
  | some s =>
      if s.status != SubStatus.active then false
      else
        let remaining := getRemainingDays (some s) now
        remaining > 0 && remaining ≤ daysThreshold

/-- The `AccessValidation` result record of `validateAccess`. -/
inductive ValStatus where
  | granted
  | expired
  | invalid
  | alreadyCheckedIn
deriving DecidableEq, Repr

structure AccessValidation where
  isValid : Bool
  status : ValStatus
  message : String
  user : Option User
  subscription : Option Subscription
deriving DecidableEq, Repr

/-- Model of `validateAccess`: user lookup, then subscription activity, then
session presence. -/
def validateAccess (st : Store) (userId : String) (now : Int) : AccessValidation :=
  match getUserById st userId with
  | none =>
      { isValid := false, status := ValStatus.invalid
        message := "Invalid QR Code - User not found"
        user := none, subscription := none }
  | some user =>
      let subscription := getSubscriptionByUserId st userId
      if !(isSubscriptionActive subscription now) then
        { isValid := false, status := ValStatus.expired
          message := "Subscription Expired"
          user := some user, subscription := subscription }
      else
        let isCheckedIn := isUserCheckedIn st userId
        { isValid := true
          status := if isCheckedIn then ValStatus.alreadyCheckedIn else ValStatus.granted
          message := if isCheckedIn then "Already Checked In" else "Access Granted"
          user := some user, subscription := subscription }

/-! ## Access decision engine (`access.service.ts`) -/

/-- Result of the access entry points (`{success, message, log?}`). -/
structure ScanResult where
  success : Bool
  message : String
  log : Option ScanLog
deriving DecidableEq, Repr

/-- Model of `processCheckIn`: validate; no user → invalid; not valid → expired/
invalid log; already checked in → conflict without log; else start the
session and write a success check-in log. -/
def processCheckIn (st : Store) (userId : String) (now : Int) : Store × ScanResult :=
  let validation := validateAccess st userId now
  match validation.user with
  | none =>
      (st, { success := false, message := "Invalid QR Code - User not found", log := none })
  | some user =>
      if validation.isValid = false then
        let log : ScanLog :=
          { userId := userId, userName := user.name, timestamp := now
            action := ScanAction.notApplicable
            status := if validation.status = ValStatus.expired then ScanStatus.expired
                      else ScanStatus.invalid }
        (addScanLog st log, { success := false, message := validation.message, log := some log })
      else if validation.status = ValStatus.alreadyCheckedIn then
        (st, { success := false, message := "User is already checked in", log := none })
      else
        let session : ActiveSession :=
          { userId := userId, userName := user.name, checkInTime := now }
        let st1 := startSession st session
        let log : ScanLog :=
          { userId := userId, userName := user.name, timestamp := now
            action := ScanAction.checkIn, status := ScanStatus.success }
        (addScanLog st1 log,
         { success := true, message := "Welcome, " ++ user.name ++ "!", log := some log })

/-- Model of `processCheckOut`: user lookup; end the session; no session →
conflict without log; else write a success check-out log. Note: no
subscription check on this path. -/
def processCheckOut (st : Store) (userId : String) (now : Int) : Store × ScanResult :=
  match getUserById st userId with
  | none =>
      (st, { success := false, message := "Invalid QR Code - User not found", log := none })
  | some user =>
      match endSession st userId with
      | (st1, none) =>
          (st1, { success := false, message := "User is not checked in", log := none })
      | (st1, some _) =>
          let log : ScanLog :=
            { userId := userId, userName := user.name, timestamp := now
              action := ScanAction.checkOut, status := ScanStatus.success }
          (addScanLog st1 log,
           { success := true, message := "Goodbye, " ++ user.name ++ "!", log := some log })

/-- Model of `processScan`: auto-toggle — dispatch on session presence. -/
def processScan (st : Store) (userId : String) (now : Int) : Store × ScanResult :=
  if isUserCheckedIn st userId then processCheckOut st userId now
  else processCheckIn st userId now

/-! ## Gym-hours aggregation (`calculateGymHours`, member-stats component) -/

/-- The `periodStart && logTime < periodStart` skip condition. -/
def beforePeriod (periodStart : Option Int) (t : Int) : Bool :=
  match periodStart with
  | some ps => t < ps
  | none => false

/-- One step of `calculateForPeriod`'s loop body: skip entries before the
period start; a check-in overwrites `lastIn`; a check-out with a pending
`lastIn` accumulates the delta and clears it. -/
def gymStep (periodStart : Option Int) (acc : Int × Option Int) (log : ScanLog) :
    Int × Option Int :=
  if beforePeriod periodStart log.timestamp then acc
  else
    let acc1 := if log.action = ScanAction.checkIn then (acc.1, some log.timestamp) else acc
    match log.action, acc1.2 with
    | ScanAction.checkOut, some lastIn => (acc1.1 + (log.timestamp - lastIn), none)
    | _, _ => acc1

/-- Model of `calculateForPeriod` over the timestamp-ascending-sorted log list:
fold `gymStep` from `(totalMs, lastIn) = (0, null)` and return the total. -/
def calculateForPeriod (periodStart : Option Int) (sorted : List ScanLog) : Int :=
  (sorted.foldl (gymStep periodStart) (0, none)).1

/-! ## Operation sequences and the session-uniqueness invariant -/

/-- One invocation of an access-service entry point. -/
inductive AccessOp where
  | scan (userId : String) (now : Int)
  | doCheckIn (userId : String) (now : Int)
  | doCheckOut (userId : String) (now : Int)

/-- Apply one entry-point call to the store, keeping the resulting state. -/
def applyOp (st : Store) : AccessOp → Store
  | AccessOp.scan uid now => (processScan st uid now).1
  | AccessOp.doCheckIn uid now => (processCheckIn st uid now).1
  | AccessOp.doCheckOut uid now => (processCheckOut st uid now).1

/-- Run a sequence of entry-point calls. -/
def runOps (st : Store) (ops : List AccessOp) : Store :=
  ops.foldl applyOp st

/-- Number of Active Session rows stored for a member. -/
def sessionCount (st : Store) (uid : String) : Nat :=
  (st.sessions.filter (fun s => s.userId == uid)).length

/-- The session-uniqueness invariant: at most one Active Session row per
member. -/
def atMostOneSessionPerMember (st : Store) : Prop :=
  ∀ uid, sessionCount st uid ≤ 1

/-! ## Concrete fixtures -/

/-- Sample member `u1`. -/
def sampleUser : User :=
  { userId := "u1", name := "A", email := "a@x", phone := "1", createdAt := 0, updatedAt := 0 }

/-- A subscription whose end timestamp (5) is in the past at `now = 10`,
status field still `active`. -/
def expiredSub : Subscription :=
  { userId := "u1", startDate := 0, endDate := 5, status := SubStatus.active, createdAt := 0 }

/-- An open session for `u1`. -/
def sampleSession : ActiveSession :=
  { userId := "u1", userName := "A", checkInTime := 1 }

/-- Store where `u1` has the expired subscription and an open session. -/
def stWithSession : Store :=
  { users := [sampleUser], subscriptions := [expiredSub], scanLogs := [],
    history := [], sessions := [sampleSession] }

/-- Store where `u1` has the expired subscription and no session. -/
def stNoSession : Store :=
  { stWithSession with sessions := [] }

/-- A subscription active through `now = 1000`. -/
def activeSub : Subscription :=
  { userId := "u1", startDate := 0, endDate := 1000, status := SubStatus.active, createdAt := 0 }

/-- Store where `u1` has the active subscription and no session. -/
def stActive : Store :=
  { users := [sampleUser], subscriptions := [activeSub], scanLogs := [],
    history := [], sessions := [] }

/-- Empty store. -/
def stEmpty : Store :=
  { users := [], subscriptions := [], scanLogs := [], history := [], sessions := [] }

/-- The renewal record used against `stNoSession`'s current subscription. -/
def renewalSub : Subscription :=
  { userId := "u1", startDate := 50, endDate := 200, status := SubStatus.active, createdAt := 50 }

/-- A subscription ending 2 days + 5 ms after epoch. -/
def twoDaySub : Subscription :=
  { userId := "u1", startDate := 0, endDate := 172800005,
    status := SubStatus.active, createdAt := 0 }

/-- First scan of the toggle scenario against `stActive`. -/
def toggleScan1 : Store × ScanResult := processScan stActive "u1" 10

/-- Second scan of the toggle scenario. -/
def toggleScan2 : Store × ScanResult := processScan toggleScan1.1 "u1" 20

/-- Third scan of the toggle scenario. -/
def toggleScan3 : Store × ScanResult := processScan toggleScan2.1 "u1" 30

/-- The expired/invalid scan-log record written by `processCheckIn` when
the member exists but validation fails with the expired status. -/
def expiredLog (uid : String) (u : User) (now : Int) : ScanLog :=
  { userId := uid, userName := u.name, timestamp := now
    action := ScanAction.notApplicable, status := ScanStatus.expired }

/-- The success check-in scan-log record. -/
def checkInLog (uid : String) (u : User) (now : Int) : ScanLog :=
  { userId := uid, userName := u.name, timestamp := now
    action := ScanAction.checkIn, status := ScanStatus.success }

/-- The success check-out scan-log record. -/
def checkOutLog (uid : String) (u : User) (now : Int) : ScanLog :=
  { userId := uid, userName := u.name, timestamp := now
    action := ScanAction.checkOut, status := ScanStatus.success }

/-- The history row `archiveSubscription` writes for a subscription. -/
def archivedRow (s : Subscription) (now : Int) : SubscriptionHistory :=
  { id := s.userId ++ "-" ++ toString now
    userId := s.userId
    startDate := s.startDate
    endDate := s.endDate
    status := s.status
    createdAt := s.createdAt
    updatedAt := now }

/-- The current row after the renewal update: dates and status replaced
by the new record's, `createdAt` retained from the prior row. -/
def updatedRow (existing sub : Subscription) : Subscription :=
  { existing with startDate := sub.startDate, endDate := sub.endDate, status := sub.status }

/-! ## Helper lemmas: storage projections -/

theorem addScanLog_users (st : Store) (log : ScanLog) :
    (addScanLog st log).users = st.users := by
  unfold addScanLog; split <;> rfl

theorem addScanLog_subscriptions (st : Store) (log : ScanLog) :
    (addScanLog st log).subscriptions = st.subscriptions := by
  unfold addScanLog; split <;> rfl

theorem addScanLog_sessions (st : Store) (log : ScanLog) :
    (addScanLog st log).sessions = st.sessions := by
  unfold addScanLog; split <;> rfl

theorem addScanLog_history (st : Store) (log : ScanLog) :
    (addScanLog st log).history = st.history := by
  unfold addScanLog; split <;> rfl

theorem addScanLog_scanLogs (st : Store) (log : ScanLog) (h : log.userId ≠ "") :
    (addScanLog st log).scanLogs = st.scanLogs ++ [log] := by
  unfold addScanLog; simp [h]

/-- The function `getUserById` reads only the `users` table. -/
theorem getUserById_eq_of_users_eq (st st' : Store) (uid : String)
    (h : st'.users = st.users) : getUserById st' uid = getUserById st uid := by
  unfold getUserById; rw [h]

/-- The function `getSubscriptionByUserId` reads only the `subscriptions` table. -/
theorem getSubscriptionByUserId_eq_of_subs_eq (st st' : Store) (uid : String)
    (h : st'.subscriptions = st.subscriptions) :
    getSubscriptionByUserId st' uid = getSubscriptionByUserId st uid := by
  unfold getSubscriptionByUserId; rw [h]

/-- The function `isUserCheckedIn` reads only the `sessions` table. -/
theorem isUserCheckedIn_eq_of_sessions_eq (st st' : Store) (uid : String)
    (h : st'.sessions = st.sessions) : isUserCheckedIn st' uid = isUserCheckedIn st uid := by
  unfold isUserCheckedIn getActiveSessionByUserId; rw [h]

/-- If `find?` fails on a list, the complementary `filter` keeps it whole. -/
theorem filter_not_eq_self_of_find?_none {α : Type} (p : α → Bool) (l : List α)
    (h : l.find? p = none) : l.filter (fun x => !(p x)) = l := by
  rw [List.find?_eq_none] at h
  induction l with
  | nil => rfl
  | cons a t ih =>
    have ha : p a = false := by
      have := h a (List.mem_cons_self a t)
      simpa using this
    have ht : ∀ x ∈ t, ¬p x = true := fun x hx => h x (List.mem_cons_of_mem a hx)
    simp [List.filter_cons, ha, ih ht]

/-! ## Helper lemmas: branch characterizations of the access engine -/

theorem processCheckIn_user_none (st : Store) (uid : String) (now : Int)
    (h : getUserById st uid = none) :
    processCheckIn st uid now =
      (st, { success := false, message := "Invalid QR Code - User not found", log := none }) := by
  simp [processCheckIn, validateAccess, h]

theorem processCheckIn_inactive (st : Store) (uid : String) (now : Int) (u : User)
    (hu : getUserById st uid = some u)
    (hna : isSubscriptionActive (getSubscriptionByUserId st uid) now = false) :
    processCheckIn st uid now =
      (addScanLog st (expiredLog uid u now),
       { success := false, message := "Subscription Expired", log := some (expiredLog uid u now) }) := by
  simp [processCheckIn, validateAccess, hu, hna, expiredLog]

theorem processCheckIn_already (st : Store) (uid : String) (now : Int) (u : User)
    (hu : getUserById st uid = some u)
    (ha : isSubscriptionActive (getSubscriptionByUserId st uid) now = true)
    (hc : isUserCheckedIn st uid = true) :
    processCheckIn st uid now =
      (st, { success := false, message := "User is already checked in", log := none }) := by
  simp [processCheckIn, validateAccess, hu, ha, hc]

theorem processCheckIn_granted (st : Store) (uid : String) (now : Int) (u : User)
    (hu : getUserById st uid = some u)
    (ha : isSubscriptionActive (getSubscriptionByUserId st uid) now = true)
    (hc : isUserCheckedIn st uid = false) :
    processCheckIn st uid now =
      (addScanLog (startSession st { userId := uid, userName := u.name, checkInTime := now })
         (checkInLog uid u now),
       { success := true, message := "Welcome, " ++ u.name ++ "!",
         log := some (checkInLog uid u now) }) := by
  simp [processCheckIn, validateAccess, hu, ha, hc, checkInLog]

theorem processCheckOut_user_none (st : Store) (uid : String) (now : Int)
    (h : getUserById st uid = none) :
    processCheckOut st uid now =
      (st, { success := false, message := "Invalid QR Code - User not found", log := none }) := by
  simp [processCheckOut, h]

theorem processCheckOut_no_session (st : Store) (uid : String) (now : Int) (u : User)
    (hu : getUserById st uid = some u)
    (hc : isUserCheckedIn st uid = false) :
    processCheckOut st uid now =
      (st, { success := false, message := "User is not checked in", log := none }) := by
  have hn : getActiveSessionByUserId st uid = none := by
    unfold isUserCheckedIn at hc
    exact Option.not_isSome_iff_eq_none.mp (by simp [hc])
  simp [processCheckOut, hu, endSession, hn]

theorem processCheckOut_session (st : Store) (uid : String) (now : Int) (u : User)
    (hu : getUserById st uid = some u)
    (hc : isUserCheckedIn st uid = true) :
    processCheckOut st uid now =
      (addScanLog { st with sessions := st.sessions.filter (fun x => x.userId != uid) }
         (checkOutLog uid u now),
       { success := true, message := "Goodbye, " ++ u.name ++ "!",
         log := some (checkOutLog uid u now) }) := by
  unfold isUserCheckedIn at hc
  obtain ⟨s, hs⟩ := Option.isSome_iff_exists.mp hc
  simp [processCheckOut, hu, endSession, hs, checkOutLog]

theorem processScan_not_checkedIn (st : Store) (uid : String) (now : Int)
    (h : isUserCheckedIn st uid = false) :
    processScan st uid now = processCheckIn st uid now := by
  simp [processScan, h]

theorem processScan_checkedIn (st : Store) (uid : String) (now : Int)
    (h : isUserCheckedIn st uid = true) :
    processScan st uid now = processCheckOut st uid now := by
  simp [processScan, h]

/-- Running `processScan` on an identifier that resolves to no member: both the
check-out and check-in dispatch targets reject before touching any table,
leaving the store unchanged. -/
theorem processScan_unknown_user (st : Store) (uid : String) (now : Int)
    (h : getUserById st uid = none) :
    processScan st uid now =
      (st, { success := false, message := "Invalid QR Code - User not found", log := none }) := by
  by_cases hc : isUserCheckedIn st uid = true
  · rw [processScan_checkedIn st uid now hc, processCheckOut_user_none st uid now h]
  · have hc' : isUserCheckedIn st uid = false := by
      cases hcc : isUserCheckedIn st uid
      · rfl
      · exact absurd hcc hc
    rw [processScan_not_checkedIn st uid now hc', processCheckIn_user_none st uid now h]

/-! ## Claim theorems -/

/-- C6: `isExpiringSoon(subscription, thresholdDays)` is true iff the
subscription is active in the sense of `isSubscriptionActive` and
`0 < remainingDays ≤ thresholdDays`; in particular an inactive
subscription is never reported as expiring soon. -/
theorem C6_isExpiringSoon_iff (subscription : Option Subscription)
    (daysThreshold now : Int) :
    isExpiringSoon subscription daysThreshold now = true ↔
      (isSubscriptionActive subscription now = true ∧
       0 < getRemainingDays subscription now ∧
       getRemainingDays subscription now ≤ daysThreshold) := by
  cases subscription with
  | none => simp [isExpiringSoon, isSubscriptionActive, getRemainingDays]
  | some s =>
      cases hs : s.status with
      | active =>
          simp only [isExpiringSoon, isSubscriptionActive, getRemainingDays, hs, msPerDay]
          simp
          omega
      | expired => simp [isExpiringSoon, isSubscriptionActive, hs]
      | cancelled => simp [isExpiringSoon, isSubscriptionActive, hs]

/-- C7: `getRemainingDays` returns 0 when the subscription is absent,
otherwise the ceiling of `(end − now)` in whole days floored at 0
(characterized by `(r − 1) · msPerDay < end − now ≤ r · msPerDay` for a
future end), and the result is never negative. -/
theorem C7_getRemainingDays_spec (subscription : Option Subscription) (now : Int) :
    (subscription = none → getRemainingDays subscription now = 0) ∧
    0 ≤ getRemainingDays subscription now ∧
    (∀ s, subscription = some s →
      (s.endDate - now ≤ 0 → getRemainingDays subscription now = 0) ∧
      (0 < s.endDate - now →
        (getRemainingDays subscription now - 1) * msPerDay < s.endDate - now ∧
        s.endDate - now ≤ getRemainingDays subscription now * msPerDay)) := by
  cases subscription with
  | none => simp [getRemainingDays]
  | some s =>
      refine ⟨by simp, ?_, ?_⟩
      · simp [getRemainingDays]
      · intro s' hs'
        obtain rfl : s = s' := by injection hs'
        simp only [getRemainingDays, msPerDay]
        constructor
        · intro h; omega
        · intro h; omega

/-- C7 witness: a subscription ending two days and five milliseconds after
`now = 0` has three remaining days, inside the ceiling bounds. -/
theorem C7_witness :
    (some twoDaySub = (none : Option Subscription) →
      getRemainingDays (some twoDaySub) 0 = 0) ∧
    0 ≤ getRemainingDays (some twoDaySub) 0 ∧
    (∀ s, some twoDaySub = some s →
      (s.endDate - 0 ≤ 0 → getRemainingDays (some twoDaySub) 0 = 0) ∧
      (0 < s.endDate - 0 →
        (getRemainingDays (some twoDaySub) 0 - 1) * msPerDay < s.endDate - 0 ∧
        s.endDate - 0 ≤ getRemainingDays (some twoDaySub) 0 * msPerDay)) :=
  C7_getRemainingDays_spec (some twoDaySub) 0

/-- C8: scanning an identifier that resolves to no member returns a
non-granted "User not found" result, writes no Scan Log Entry, creates no
Active Session (the store is unchanged), and never consults the
subscriptions table: the outcome is identical whatever that table holds. -/
theorem C8_unknown_identifier (st : Store) (uid : String) (now : Int)
    (h : getUserById st uid = none) :
    (processScan st uid now).2.success = false ∧
    (processScan st uid now).2.message = "Invalid QR Code - User not found" ∧
    (processScan st uid now).2.log = none ∧
    (processScan st uid now).1 = st ∧
    (∀ subs : List Subscription,
      processScan { st with subscriptions := subs } uid now =
        ({ st with subscriptions := subs },
         { success := false, message := "Invalid QR Code - User not found", log := none })) := by
  have hmain := processScan_unknown_user st uid now h
  refine ⟨by rw [hmain], by rw [hmain], by rw [hmain], by rw [hmain], ?_⟩
  intro subs
  have h' : getUserById { st with subscriptions := subs } uid = none := by
    rw [getUserById_eq_of_users_eq st { st with subscriptions := subs } uid rfl]
    exact h
  exact processScan_unknown_user { st with subscriptions := subs } uid now h'

/-- C8 witness: the unknown identifier `ZZZ-9999` scanned against the
store that only knows `u1`. -/
theorem C8_witness :
    (processScan stActive "ZZZ-9999" 10).2.success = false ∧
    (processScan stActive "ZZZ-9999" 10).2.message = "Invalid QR Code - User not found" ∧
    (processScan stActive "ZZZ-9999" 10).2.log = none ∧
    (processScan stActive "ZZZ-9999" 10).1 = stActive ∧
    (∀ subs : List Subscription,
      processScan { stActive with subscriptions := subs } "ZZZ-9999" 10 =
        ({ stActive with subscriptions := subs },
         { success := false, message := "Invalid QR Code - User not found", log := none })) :=
  C8_unknown_identifier stActive "ZZZ-9999" 10 (by decide)

/-- C10: when `processScan`'s own session read finds no Active Session,
the dispatched `processCheckIn` re-reads the same absent session inside
`validateAccess`, so the "User is already checked in" result is
unreachable on the check-in path. -/
theorem C10_no_already_checked_in_on_checkin_path (st : Store) (uid : String) (now : Int)
    (h : isUserCheckedIn st uid = false) :
    (processScan st uid now).2 ≠
      { success := false, message := "User is already checked in", log := none } := by
  rw [processScan_not_checkedIn st uid now h]
  cases hu : getUserById st uid with
  | none =>
      rw [processCheckIn_user_none st uid now hu]
      intro hcontra
      have hmsg := congrArg ScanResult.message hcontra
      simp at hmsg
  | some u =>
      cases ha : isSubscriptionActive (getSubscriptionByUserId st uid) now with
      | false =>
          rw [processCheckIn_inactive st uid now u hu ha]
          intro hcontra
          have hlog := congrArg ScanResult.log hcontra
          simp at hlog
      | true =>
          rw [processCheckIn_granted st uid now u hu ha h]
          intro hcontra
          have hsucc := congrArg ScanResult.success hcontra
          simp at hsucc

/-- C10 witness: member with active subscription and no session; the scan
result is a granted check-in, not the conflict result. -/
theorem C10_witness :
    (processScan stActive "u1" 10).2 ≠
      { success := false, message := "User is already checked in", log := none } :=
  C10_no_already_checked_in_on_checkin_path stActive "u1" 10 (by decide)

/-- C1 counterexample: member `u1`'s current subscription ends at 5, in
the past at `now = 10`, yet with an Active Session present `processScan`
returns a granted check-out — not the expired/not-applicable outcome the
claim requires regardless of session state. -/
theorem C1_counterexample :
    getSubscriptionByUserId stWithSession "u1" = some expiredSub ∧
    expiredSub.endDate < 10 ∧
    isUserCheckedIn stWithSession "u1" = true ∧
    (processScan stWithSession "u1" 10).2.success = true ∧
    (processScan stWithSession "u1" 10).2.log =
      some { userId := "u1", userName := "A", timestamp := 10
             action := ScanAction.checkOut, status := ScanStatus.success } := by
  decide

/-- C1 (amended): a Member whose current Subscription end timestamp is in
the past receives the expired outcome (granted = false, action
not-applicable, status expired) from `processScan` only when no Active
Session exists for the Member, and then no session is created; when an
Active Session exists, `processScan` instead performs a granted check-out
(the check-out path never consults the subscription). -/
theorem C1_expired_member_scan (st : Store) (uid : String) (now : Int)
    (u : User) (sub : Subscription)
    (hu : getUserById st uid = some u)
    (hsub : getSubscriptionByUserId st uid = some sub)
    (hend : sub.endDate < now) :
    (isUserCheckedIn st uid = false →
      (processScan st uid now).2.success = false ∧
      (processScan st uid now).2.message = "Subscription Expired" ∧
      (processScan st uid now).2.log = some (expiredLog uid u now) ∧
      (processScan st uid now).1.sessions = st.sessions) ∧
    (isUserCheckedIn st uid = true →
      (processScan st uid now).2.success = true ∧
      (processScan st uid now).2.log = some (checkOutLog uid u now)) := by
  have hd : decide (sub.endDate ≥ now) = false := by
    simp only [decide_eq_false_iff_not]
    omega
  have hna : isSubscriptionActive (getSubscriptionByUserId st uid) now = false := by
    rw [hsub]
    simp [isSubscriptionActive, hd]
  constructor
  · intro hc
    rw [processScan_not_checkedIn st uid now hc, processCheckIn_inactive st uid now u hu hna]
    exact ⟨rfl, rfl, rfl, addScanLog_sessions st _⟩
  · intro hc
    rw [processScan_checkedIn st uid now hc, processCheckOut_session st uid now u hu hc]
    exact ⟨rfl, rfl⟩

/-- C1 witness: the amended claim instantiated at `u1` with the expired
subscription, in the no-session store. -/
theorem C1_witness :
    (isUserCheckedIn stNoSession "u1" = false →
      (processScan stNoSession "u1" 10).2.success = false ∧
      (processScan stNoSession "u1" 10).2.message = "Subscription Expired" ∧
      (processScan stNoSession "u1" 10).2.log = some (expiredLog "u1" sampleUser 10) ∧
      (processScan stNoSession "u1" 10).1.sessions = stNoSession.sessions) ∧
    (isUserCheckedIn stNoSession "u1" = true →
      (processScan stNoSession "u1" 10).2.success = true ∧
      (processScan stNoSession "u1" 10).2.log = some (checkOutLog "u1" sampleUser 10)) :=
  C1_expired_member_scan stNoSession "u1" 10 sampleUser expiredSub
    (by decide) (by decide) (by decide)

/-- A check-in step never changes the accumulated total of the gym-hours
fold. -/
theorem gymStep_checkIn_fst (ps : Option Int) (acc : Int × Option Int) (log : ScanLog)
    (h : log.action = ScanAction.checkIn) : (gymStep ps acc log).1 = acc.1 := by
  unfold gymStep
  split
  · rfl
  · simp [h]

/-- C9: in the gym-hours pairing over ascending-ordered entries, a
check-out with a pending open check-in accumulates the delta and clears
the pending pointer; a check-in overwrites any pending open check-in
(consecutive check-ins never double count); an unmatched trailing
check-in contributes zero elapsed time. -/
theorem C9_gym_hours_pairing :
    (∀ ps total t0 log, log.action = ScanAction.checkOut →
      beforePeriod ps log.timestamp = false →
      gymStep ps (total, some t0) log = (total + (log.timestamp - t0), none)) ∧
    (∀ ps total pending log, log.action = ScanAction.checkIn →
      beforePeriod ps log.timestamp = false →
      gymStep ps (total, pending) log = (total, some log.timestamp)) ∧
    (∀ ps logs log, log.action = ScanAction.checkIn →
      calculateForPeriod ps (logs ++ [log]) = calculateForPeriod ps logs) := by
  refine ⟨?_, ?_, ?_⟩
  · intro ps total t0 log hco hin
    unfold gymStep
    simp [hin, hco]
  · intro ps total pending log hci hin
    unfold gymStep
    simp [hin, hci]
  · intro ps logs log hci
    unfold calculateForPeriod
    rw [List.foldl_append, List.foldl_cons, List.foldl_nil]
    exact gymStep_checkIn_fst ps _ log hci

/-- C9 witness: a check-out at 30 against a pending check-in at 0
accumulates 30 ms and clears the pending pointer. -/
theorem C9_witness :
    gymStep none (0, some 0)
      { userId := "u1", userName := "A", timestamp := 30
        action := ScanAction.checkOut, status := ScanStatus.success } = (30, none) := by
  simpa using C9_gym_hours_pairing.1 none 0 0
    { userId := "u1", userName := "A", timestamp := 30
      action := ScanAction.checkOut, status := ScanStatus.success } rfl rfl

/-- The welcome message can never collide with the check-in conflict
message, whatever the member's name. -/
theorem welcome_ne_already (s : String) :
    ("Welcome, " ++ s ++ "!") ≠ "User is already checked in" := by
  intro h
  have hd := congrArg (fun t => t.data.head?) h
  simp [String.data_append] at hd

/-- The goodbye message can never collide with the check-out conflict
message, whatever the member's name. -/
theorem goodbye_ne_not_checked_in (s : String) :
    ("Goodbye, " ++ s ++ "!") ≠ "User is not checked in" := by
  intro h
  have hd := congrArg (fun t => t.data.head?) h
  simp [String.data_append] at hd

/-- C4: a success outcome (check-in or check-out) or an expired outcome
appends exactly one new Scan Log Entry (the one carried in the result);
the conflict outcomes — "already checked in" from `processCheckIn` and
"not checked in" from `processCheckOut` — append none. -/
theorem C4_log_completeness (st : Store) (uid : String) (now : Int) (hne : uid ≠ "") :
    ((processCheckIn st uid now).2.success = true →
      ∃ l, (processCheckIn st uid now).2.log = some l ∧
        (processCheckIn st uid now).1.scanLogs = st.scanLogs ++ [l]) ∧
    (∀ l, (processCheckIn st uid now).2.log = some l → l.status = ScanStatus.expired →
      (processCheckIn st uid now).1.scanLogs = st.scanLogs ++ [l]) ∧
    ((processCheckIn st uid now).2.message = "User is already checked in" →
      (processCheckIn st uid now).1.scanLogs = st.scanLogs) ∧
    ((processCheckOut st uid now).2.success = true →
      ∃ l, (processCheckOut st uid now).2.log = some l ∧
        (processCheckOut st uid now).1.scanLogs = st.scanLogs ++ [l]) ∧
    ((processCheckOut st uid now).2.message = "User is not checked in" →
      (processCheckOut st uid now).1.scanLogs = st.scanLogs) := by
  refine ⟨?_, ?_, ?_, ?_, ?_⟩
  · -- check-in success appends its log
    intro hs
    cases hu : getUserById st uid with
    | none => rw [processCheckIn_user_none st uid now hu] at hs ⊢; simp at hs
    | some u =>
        cases ha : isSubscriptionActive (getSubscriptionByUserId st uid) now with
        | false => rw [processCheckIn_inactive st uid now u hu ha] at hs ⊢; simp at hs
        | true =>
            cases hc : isUserCheckedIn st uid with
            | true => rw [processCheckIn_already st uid now u hu ha hc] at hs ⊢; simp at hs
            | false =>
                rw [processCheckIn_granted st uid now u hu ha hc]
                exact ⟨checkInLog uid u now, rfl, addScanLog_scanLogs _ _ hne⟩
  · -- expired outcome appends its log
    intro l hl _
    cases hu : getUserById st uid with
    | none => rw [processCheckIn_user_none st uid now hu] at hl ⊢; simp at hl
    | some u =>
        cases ha : isSubscriptionActive (getSubscriptionByUserId st uid) now with
        | false =>
            rw [processCheckIn_inactive st uid now u hu ha] at hl ⊢
            simp only at hl
            injection hl with hl'
            rw [← hl']
            exact addScanLog_scanLogs _ _ hne
        | true =>
            cases hc : isUserCheckedIn st uid with
            | true => rw [processCheckIn_already st uid now u hu ha hc] at hl ⊢; simp at hl
            | false =>
                rw [processCheckIn_granted st uid now u hu ha hc] at hl ⊢
                simp only at hl
                injection hl with hl'
                rw [← hl']
                exact addScanLog_scanLogs _ _ hne
  · -- check-in conflict appends nothing
    intro hm
    cases hu : getUserById st uid with
    | none => rw [processCheckIn_user_none st uid now hu]
    | some u =>
        cases ha : isSubscriptionActive (getSubscriptionByUserId st uid) now with
        | false =>
            rw [processCheckIn_inactive st uid now u hu ha] at hm
            simp at hm
        | true =>
            cases hc : isUserCheckedIn st uid with
            | true => rw [processCheckIn_already st uid now u hu ha hc]
            | false =>
                rw [processCheckIn_granted st uid now u hu ha hc] at hm
                simp only at hm
                exact absurd hm (welcome_ne_already u.name)
  · -- check-out success appends its log
    intro hs
    cases hu : getUserById st uid with
    | none => rw [processCheckOut_user_none st uid now hu] at hs ⊢; simp at hs
    | some u =>
        cases hc : isUserCheckedIn st uid with
        | false => rw [processCheckOut_no_session st uid now u hu hc] at hs ⊢; simp at hs
        | true =>
            rw [processCheckOut_session st uid now u hu hc]
            exact ⟨checkOutLog uid u now, rfl, addScanLog_scanLogs _ _ hne⟩
  · -- check-out conflict appends nothing
    intro hm
    cases hu : getUserById st uid with
    | none => rw [processCheckOut_user_none st uid now hu]
    | some u =>
        cases hc : isUserCheckedIn st uid with
        | false => rw [processCheckOut_no_session st uid now u hu hc]
        | true =>
            rw [processCheckOut_session st uid now u hu hc] at hm
            simp only at hm
            exact absurd hm (goodbye_ne_not_checked_in u.name)

/-- C4 witness: the active member checking in at `now = 10`. -/
theorem C4_witness :
    ((processCheckIn stActive "u1" 10).2.success = true →
      ∃ l, (processCheckIn stActive "u1" 10).2.log = some l ∧
        (processCheckIn stActive "u1" 10).1.scanLogs = stActive.scanLogs ++ [l]) ∧
    (∀ l, (processCheckIn stActive "u1" 10).2.log = some l → l.status = ScanStatus.expired →
      (processCheckIn stActive "u1" 10).1.scanLogs = stActive.scanLogs ++ [l]) ∧
    ((processCheckIn stActive "u1" 10).2.message = "User is already checked in" →
      (processCheckIn stActive "u1" 10).1.scanLogs = stActive.scanLogs) ∧
    ((processCheckOut stActive "u1" 10).2.success = true →
      ∃ l, (processCheckOut stActive "u1" 10).2.log = some l ∧
        (processCheckOut stActive "u1" 10).1.scanLogs = stActive.scanLogs ++ [l]) ∧
    ((processCheckOut stActive "u1" 10).2.message = "User is not checked in" →
      (processCheckOut stActive "u1" 10).1.scanLogs = stActive.scanLogs) :=
  C4_log_completeness stActive "u1" 10 (by decide)

/-- After the renewal update maps over the subscriptions table, the first
row matching the member is the prior row with `startDate`, `endDate`,
`status` replaced and `createdAt` retained. -/
theorem find?_map_renewal (l : List Subscription) (uid : String) (sub : Subscription)
    (e : Subscription) (h : l.find? (fun s => s.userId == uid) = some e) :
    (l.map (fun s => if s.userId == uid then
        { s with startDate := sub.startDate, endDate := sub.endDate, status := sub.status }
      else s)).find? (fun s => s.userId == uid) = some (updatedRow e sub) := by
  induction l with
  | nil => simp at h
  | cons a t ih =>
      cases ha : (a.userId == uid) with
      | true =>
          rw [List.find?_cons_of_pos (p := fun (s : Subscription) => s.userId == uid) _ ha] at h
          injection h with h'
          subst h'
          rw [List.map_cons, if_pos ha]
          exact List.find?_cons_of_pos (p := fun (s : Subscription) => s.userId == uid) _ ha
      | false =>
          have hpa : ¬((a.userId == uid) = true) := by simp [ha]
          rw [List.find?_cons_of_neg (p := fun (s : Subscription) => s.userId == uid) _ hpa] at h
          rw [List.map_cons, if_neg hpa,
            List.find?_cons_of_neg (p := fun (s : Subscription) => s.userId == uid) _ hpa]
          exact ih h

/-- C5 counterexample: renewing `u1`'s current subscription (stored
`createdAt = 0`) with `renewalSub` (`createdAt = 50`) leaves `getCurrent`
returning a row whose `createdAt` is still 0 — not the new record. -/
theorem C5_counterexample :
    getSubscriptionByUserId stNoSession "u1" = some expiredSub ∧
    getSubscriptionByUserId (addOrUpdateSubscription stNoSession renewalSub 60) "u1" ≠
      some renewalSub ∧
    getSubscriptionByUserId (addOrUpdateSubscription stNoSession renewalSub 60) "u1" =
      some { userId := "u1", startDate := 50, endDate := 200,
             status := SubStatus.active, createdAt := 0 } := by
  decide

/-- C5 (amended): renewing a Member with an existing current Subscription
appends exactly one Subscription History row copying the prior current
row's fields, and replaces the current row's `startDate`, `endDate` and
`status` with the new record's (the stored `createdAt` of the prior row
is retained), so `getCurrent` returns that updated row; renewing a Member
with no current Subscription inserts the new record as the current row
and appends no history row. -/
theorem C5_renewal_archival (st : Store) (sub : Subscription) (now : Int) :
    (∀ existing, getSubscriptionByUserId st sub.userId = some existing →
      (addOrUpdateSubscription st sub now).history =
        st.history ++ [archivedRow existing now] ∧
      getSubscriptionByUserId (addOrUpdateSubscription st sub now) sub.userId =
        some (updatedRow existing sub)) ∧
    (getSubscriptionByUserId st sub.userId = none →
      (addOrUpdateSubscription st sub now).history = st.history ∧
      getSubscriptionByUserId (addOrUpdateSubscription st sub now) sub.userId = some sub) := by
  constructor
  · intro existing hex
    unfold addOrUpdateSubscription
    rw [hex]
    constructor
    · simp [archiveSubscription, archivedRow]
    · unfold getSubscriptionByUserId at hex ⊢
      exact find?_map_renewal st.subscriptions sub.userId sub existing hex
  · intro hnone
    unfold addOrUpdateSubscription
    rw [hnone]
    constructor
    · rfl
    · unfold getSubscriptionByUserId at hnone ⊢
      rw [List.find?_append, hnone]
      simp

/-- A member who is not checked in has no session row to find. -/
theorem not_checkedIn_find?_none (st : Store) (uid : String)
    (h : isUserCheckedIn st uid = false) :
    st.sessions.find? (fun s => s.userId == uid) = none := by
  unfold isUserCheckedIn getActiveSessionByUserId at h
  exact Option.not_isSome_iff_eq_none.mp (by simp [h])

/-- Deleting a member's sessions from a list that holds none leaves the
list unchanged. -/
theorem filter_ne_eq_self_of_find?_none (l : List ActiveSession) (uid : String)
    (h : l.find? (fun s => s.userId == uid) = none) :
    l.filter (fun x => x.userId != uid) = l := by
  rw [List.find?_eq_none] at h
  induction l with
  | nil => rfl
  | cons a t ih =>
      have ha : (a.userId == uid) = false := by
        have := h a (List.mem_cons_self a t)
        simpa using this
      have ht : ∀ x ∈ t, ¬(x.userId == uid) = true :=
        fun x hx => h x (List.mem_cons_of_mem a hx)
      have hcond : (a.userId != uid) = true := by simp [bne, ha]
      rw [List.filter_cons, if_pos hcond, ih ht]

/-- C3: for a member with a subscription active at each instant and no
session, three consecutive `processScan` calls grant check-in, check-out
and check-in again, and the second scan restores the session table to its
initial contents. -/
theorem C3_toggle (st : Store) (uid : String) (u : User) (now1 now2 now3 : Int)
    (hu : getUserById st uid = some u)
    (ha1 : isSubscriptionActive (getSubscriptionByUserId st uid) now1 = true)
    (_ha2 : isSubscriptionActive (getSubscriptionByUserId st uid) now2 = true)
    (ha3 : isSubscriptionActive (getSubscriptionByUserId st uid) now3 = true)
    (hs : isUserCheckedIn st uid = false) :
    ∀ st1 r1, processScan st uid now1 = (st1, r1) →
    ∀ st2 r2, processScan st1 uid now2 = (st2, r2) →
    ∀ st3 r3, processScan st2 uid now3 = (st3, r3) →
      r1.success = true ∧ r1.log = some (checkInLog uid u now1) ∧
      r2.success = true ∧ r2.log = some (checkOutLog uid u now2) ∧
      st2.sessions = st.sessions ∧
      r3.success = true ∧ r3.log = some (checkInLog uid u now3) := by
  intro st1 r1 h1 st2 r2 h2 st3 r3 h3
  have hfind := not_checkedIn_find?_none st uid hs
  -- first scan: a granted check-in
  rw [processScan_not_checkedIn st uid now1 hs,
    processCheckIn_granted st uid now1 u hu ha1 hs] at h1
  injection h1 with h1s h1r
  have hsess1 : st1.sessions =
      st.sessions ++ [{ userId := uid, userName := u.name, checkInTime := now1 }] := by
    rw [← h1s]
    exact addScanLog_sessions _ _
  have hu1 : getUserById st1 uid = some u := by
    have husers1 : st1.users = st.users := by
      rw [← h1s]
      exact addScanLog_users _ _
    rw [getUserById_eq_of_users_eq st st1 uid husers1, hu]
  have hsub1 : getSubscriptionByUserId st1 uid = getSubscriptionByUserId st uid := by
    have hsubs1 : st1.subscriptions = st.subscriptions := by
      rw [← h1s]
      exact addScanLog_subscriptions _ _
    exact getSubscriptionByUserId_eq_of_subs_eq st st1 uid hsubs1
  have hc1 : isUserCheckedIn st1 uid = true := by
    unfold isUserCheckedIn getActiveSessionByUserId
    rw [hsess1, List.find?_append, hfind]
    simp
  -- second scan: a granted check-out
  rw [processScan_checkedIn st1 uid now2 hc1,
    processCheckOut_session st1 uid now2 u hu1 hc1] at h2
  injection h2 with h2s h2r
  have hsess2 : st2.sessions = st.sessions := by
    rw [← h2s, addScanLog_sessions]
    show st1.sessions.filter (fun x => x.userId != uid) = st.sessions
    rw [hsess1, List.filter_append, filter_ne_eq_self_of_find?_none st.sessions uid hfind]
    simp [bne]
  have hu2 : getUserById st2 uid = some u := by
    have husers : st2.users = st.users := by
      rw [← h2s, addScanLog_users]
      show st1.users = st.users
      rw [← h1s]
      exact addScanLog_users _ _
    rw [getUserById_eq_of_users_eq st st2 uid husers, hu]
  have hsub2 : getSubscriptionByUserId st2 uid = getSubscriptionByUserId st uid := by
    have hsubs : st2.subscriptions = st.subscriptions := by
      rw [← h2s, addScanLog_subscriptions]
      show st1.subscriptions = st.subscriptions
      rw [← h1s]
      exact addScanLog_subscriptions _ _
    exact getSubscriptionByUserId_eq_of_subs_eq st st2 uid hsubs
  have hc2 : isUserCheckedIn st2 uid = false := by
    rw [isUserCheckedIn_eq_of_sessions_eq st st2 uid hsess2]
    exact hs
  -- third scan: a granted check-in again
  rw [processScan_not_checkedIn st2 uid now3 hc2,
    processCheckIn_granted st2 uid now3 u hu2 (by rw [hsub2]; exact ha3) hc2] at h3
  injection h3 with h3s h3r
  refine ⟨?_, ?_, ?_, ?_, hsess2, ?_, ?_⟩
  · rw [← h1r]
  · rw [← h1r]
  · rw [← h2r]
  · rw [← h2r]
  · rw [← h3r]
  · rw [← h3r]

/-- C3 witness: the toggle scenario run concretely from `stActive` at
instants 10, 20, 30. -/
theorem C3_witness :
    toggleScan1.2.success = true ∧
    toggleScan1.2.log = some (checkInLog "u1" sampleUser 10) ∧
    toggleScan2.2.success = true ∧
    toggleScan2.2.log = some (checkOutLog "u1" sampleUser 20) ∧
    toggleScan2.1.sessions = stActive.sessions ∧
    toggleScan3.2.success = true ∧
    toggleScan3.2.log = some (checkInLog "u1" sampleUser 30) :=
  C3_toggle stActive "u1" sampleUser 10 20 30 (by decide) (by decide) (by decide)
    (by decide) (by decide) toggleScan1.1 toggleScan1.2 rfl
    toggleScan2.1 toggleScan2.2 rfl toggleScan3.1 toggleScan3.2 rfl

/-- C5 witness: the amended claim instantiated at the renewal of `u1`'s
current subscription. -/
theorem C5_witness :
    (∀ existing, getSubscriptionByUserId stNoSession renewalSub.userId = some existing →
      (addOrUpdateSubscription stNoSession renewalSub 60).history =
        stNoSession.history ++ [archivedRow existing 60] ∧
      getSubscriptionByUserId (addOrUpdateSubscription stNoSession renewalSub 60)
          renewalSub.userId =
        some (updatedRow existing renewalSub)) ∧
    (getSubscriptionByUserId stNoSession renewalSub.userId = none →
      (addOrUpdateSubscription stNoSession renewalSub 60).history = stNoSession.history ∧
      getSubscriptionByUserId (addOrUpdateSubscription stNoSession renewalSub 60)
          renewalSub.userId = some renewalSub) :=
  C5_renewal_archival stNoSession renewalSub 60

/-! ## Helper lemmas: session counting -/

theorem sessionCount_eq_of_sessions_eq (st st' : Store) (uid : String)
    (h : st'.sessions = st.sessions) : sessionCount st' uid = sessionCount st uid := by
  unfold sessionCount
  rw [h]

/-- A member who is not checked in has zero session rows. -/
theorem sessionCount_of_not_checkedIn (st : Store) (uid : String)
    (h : isUserCheckedIn st uid = false) : sessionCount st uid = 0 := by
  unfold sessionCount
  have hfind := not_checkedIn_find?_none st uid h
  rw [List.find?_eq_none] at hfind
  have hnil : st.sessions.filter (fun s => s.userId == uid) = [] := by
    rw [List.filter_eq_nil_iff]
    exact hfind
  rw [hnil]
  rfl

/-- Appending a session row for `uid` adds one to `uid`'s count. -/
theorem count_append_self (l : List ActiveSession) (uid : String) (s : ActiveSession)
    (hid : s.userId = uid) :
    ((l ++ [s]).filter (fun x => x.userId == uid)).length =
      (l.filter (fun x => x.userId == uid)).length + 1 := by
  rw [List.filter_append]
  simp [hid]

/-- Appending a session row for `uid` leaves other members' counts alone. -/
theorem count_append_other (l : List ActiveSession) (uid uidb : String) (s : ActiveSession)
    (hid : s.userId = uid) (hne : uid ≠ uidb) :
    ((l ++ [s]).filter (fun x => x.userId == uidb)).length =
      (l.filter (fun x => x.userId == uidb)).length := by
  rw [List.filter_append]
  simp [hid, hne]

/-- Counting inside a filtered list never exceeds the original count. -/
theorem count_filter_le (l : List ActiveSession) (p q : ActiveSession → Bool) :
    ((l.filter q).filter p).length ≤ (l.filter p).length :=
  List.Sublist.length_le (List.Sublist.filter p (List.filter_sublist l))

/-- Model of `processCheckIn` preserves the at-most-one-session invariant. -/
theorem processCheckIn_preserves (st : Store) (uid : String) (now : Int)
    (h : atMostOneSessionPerMember st) :
    atMostOneSessionPerMember (processCheckIn st uid now).1 := by
  cases hu : getUserById st uid with
  | none =>
      rw [processCheckIn_user_none st uid now hu]
      exact h
  | some u =>
      cases ha : isSubscriptionActive (getSubscriptionByUserId st uid) now with
      | false =>
          rw [processCheckIn_inactive st uid now u hu ha]
          intro uidb
          rw [sessionCount_eq_of_sessions_eq st _ uidb (addScanLog_sessions _ _)]
          exact h uidb
      | true =>
          cases hc : isUserCheckedIn st uid with
          | true =>
              rw [processCheckIn_already st uid now u hu ha hc]
              exact h
          | false =>
              rw [processCheckIn_granted st uid now u hu ha hc]
              intro uidb
              have hsess : (addScanLog
                  (startSession st { userId := uid, userName := u.name, checkInTime := now })
                  (checkInLog uid u now)).sessions =
                  st.sessions ++ [{ userId := uid, userName := u.name, checkInTime := now }] :=
                addScanLog_sessions _ _
              unfold sessionCount
              rw [hsess]
              by_cases heq : uid = uidb
              · subst heq
                rw [count_append_self st.sessions uid _ rfl]
                have h0 := sessionCount_of_not_checkedIn st uid hc
                unfold sessionCount at h0
                omega
              · rw [count_append_other st.sessions uid uidb _ rfl heq]
                exact h uidb

/-- Model of `processCheckOut` preserves the at-most-one-session invariant. -/
theorem processCheckOut_preserves (st : Store) (uid : String) (now : Int)
    (h : atMostOneSessionPerMember st) :
    atMostOneSessionPerMember (processCheckOut st uid now).1 := by
  cases hu : getUserById st uid with
  | none =>
      rw [processCheckOut_user_none st uid now hu]
      exact h
  | some u =>
      cases hc : isUserCheckedIn st uid with
      | false =>
          rw [processCheckOut_no_session st uid now u hu hc]
          exact h
      | true =>
          rw [processCheckOut_session st uid now u hu hc]
          intro uidb
          have hsess : (addScanLog
              { st with sessions := st.sessions.filter (fun x => x.userId != uid) }
              (checkOutLog uid u now)).sessions =
              st.sessions.filter (fun x => x.userId != uid) :=
            addScanLog_sessions _ _
          unfold sessionCount
          rw [hsess]
          calc ((st.sessions.filter (fun x => x.userId != uid)).filter
                  (fun x => x.userId == uidb)).length
              ≤ (st.sessions.filter (fun x => x.userId == uidb)).length :=
                count_filter_le st.sessions _ _
            _ ≤ 1 := h uidb

/-- Model of `processScan` preserves the at-most-one-session invariant. -/
theorem processScan_preserves (st : Store) (uid : String) (now : Int)
    (h : atMostOneSessionPerMember st) :
    atMostOneSessionPerMember (processScan st uid now).1 := by
  cases hc : isUserCheckedIn st uid with
  | true =>
      rw [processScan_checkedIn st uid now hc]
      exact processCheckOut_preserves st uid now h
  | false =>
      rw [processScan_not_checkedIn st uid now hc]
      exact processCheckIn_preserves st uid now h

/-- Every entry-point call preserves the at-most-one-session invariant. -/
theorem applyOp_preserves (st : Store) (op : AccessOp)
    (h : atMostOneSessionPerMember st) : atMostOneSessionPerMember (applyOp st op) := by
  cases op with
  | scan uid now => exact processScan_preserves st uid now h
  | doCheckIn uid now => exact processCheckIn_preserves st uid now h
  | doCheckOut uid now => exact processCheckOut_preserves st uid now h

/-- A checked-in member's `processCheckIn` call never touches the session
table, whichever rejection branch it takes. -/
theorem processCheckIn_sessions_of_checkedIn (st : Store) (uid : String) (now : Int)
    (hc : isUserCheckedIn st uid = true) :
    (processCheckIn st uid now).1.sessions = st.sessions := by
  cases hu : getUserById st uid with
  | none =>
      rw [processCheckIn_user_none st uid now hu]
  | some u =>
      cases ha : isSubscriptionActive (getSubscriptionByUserId st uid) now with
      | false =>
          rw [processCheckIn_inactive st uid now u hu ha]
          exact addScanLog_sessions _ _
      | true =>
          rw [processCheckIn_already st uid now u hu ha hc]

/-- C2: starting from a state with at most one Active Session per Member,
any sequence of `processScan` / `processCheckIn` / `processCheckOut`
calls leaves at most one Active Session row per Member; in particular
`processCheckIn` invoked while the Member is already checked in creates
no session. -/
theorem C2_at_most_one_session (st : Store) (ops : List AccessOp)
    (h : atMostOneSessionPerMember st) :
    atMostOneSessionPerMember (runOps st ops) ∧
    (∀ uid now, isUserCheckedIn st uid = true →
      (processCheckIn st uid now).1.sessions = st.sessions) := by
  constructor
  · induction ops generalizing st with
    | nil => exact h
    | cons op t ih =>
        show atMostOneSessionPerMember (runOps (applyOp st op) t)
        exact ih (applyOp st op) (applyOp_preserves st op h)
  · intro uid now hc
    exact processCheckIn_sessions_of_checkedIn st uid now hc

/-- C2 witness: two scans of `u1` from the active no-session store. -/
theorem C2_witness :
    atMostOneSessionPerMember
      (runOps stActive [AccessOp.scan "u1" 10, AccessOp.scan "u1" 20]) ∧
    (∀ uid now, isUserCheckedIn stActive uid = true →
      (processCheckIn stActive uid now).1.sessions = stActive.sessions) :=
  C2_at_most_one_session stActive [AccessOp.scan "u1" 10, AccessOp.scan "u1" 20]
    (by
      intro uid
      simp [atMostOneSessionPerMember, sessionCount, stActive])

end Gym
